import Mathlib

/-!
Verification of the fleet-efficiency subscription ROI projection engine
(`app.py`).  The core of the program is a month-by-month loop that resolves
a piecewise savings policy, applies yearly cost escalation, charges periodic
hull-cleaning and one-time costs, accumulates running totals and derives ROI.

Modelling conventions:
* Python floats are modelled as exact rationals (`ℚ`).
* Python `round` (banker's rounding, round-half-to-even) is `pyRound`;
  `round(x, 2)` is `pyRound2`; the f-string `f"{x:.1f}"` is `fmt1`.
* `ZeroDivisionError` (raised by `month % cleaning_frequency` when the
  cleaning frequency is zero, and by `fuel_cost_current / fuel_price` when
  the fuel price is zero) is modelled by `Except SimError`; the checks occur
  in the evaluation order of the source (policy branch chain, then the fuel
  mass division on line 116, then the hull-cleaning modulo on line 120).
* Each emitted record carries both the rounded fields the source stores in
  its `data.append({...})` dictionary and ghost `exact…` fields holding the
  pre-rounding values, used to state exact-value properties.
-/

/-- Simulation parameters, mirroring the input widgets of `app.py`
(lines 47-82).  Percentage rates that the source divides by 100 on input
(`monthly_deterioration`, `yearly_sub_increase`, the two saving shares) are
stored here as the resulting fractions, exactly as the variables hold them
when the core loop runs. -/
structure Params where
  years : ℕ
  fleetSize : ℕ
  fuelPrice : ℚ
  dailyFuel : ℚ
  opDays : ℚ
  savingHull : ℚ
  savingVoyage : ℚ
  savingEmission : ℚ
  savingScorecard : ℚ
  savingPropulsion : ℚ
  costHull : ℚ
  costVoyage : ℚ
  costEmission : ℚ
  costScorecard : ℚ
  costPropulsion : ℚ
  rampUp : ℕ
  cleaningCost : ℚ
  cleaningFrequency : ℕ
  oneTimeCost : ℚ
  crewCost : ℚ
  monthlyDeterioration : ℚ
  yearlySubIncrease : ℚ
  rampUpSavingPct : ℚ
  postCleaningSavingPct : ℚ
deriving DecidableEq

/-- Sum of the five saving percentages (`total_saving_pct`, line 87). -/
def totalSavingPct (p : Params) : ℚ :=
  p.savingHull + p.savingVoyage + p.savingEmission + p.savingScorecard + p.savingPropulsion

/-- Sum of the five subscription costs (`initial_sub_cost`, line 68). -/
def initialSubCost (p : Params) : ℚ :=
  p.costHull + p.costVoyage + p.costEmission + p.costScorecard + p.costPropulsion

/-- Base monthly fuel cost (`monthly_fuel_cost_base`, line 86). -/
def monthlyFuelCostBase (p : Params) : ℚ :=
  p.fuelPrice * p.dailyFuel * p.opDays / 12

/-- Python `round` on an exact rational: round half to even. -/
def pyRound (q : ℚ) : ℤ :=
  if q - ⌊q⌋ < 1/2 then ⌊q⌋
  else if (1:ℚ)/2 < q - ⌊q⌋ then ⌊q⌋ + 1
  else if ⌊q⌋ % 2 = 0 then ⌊q⌋ else ⌊q⌋ + 1

/-- Python `round(x, 2)`. -/
def pyRound2 (q : ℚ) : ℚ := (pyRound (q * 100) : ℚ) / 100

/-- Python `f"{x:.1f}"` on an exact rational: one decimal digit,
round half to even. -/
def fmt1 (q : ℚ) : String :=
  let n : ℤ := pyRound (q * 10)
  let a : ℕ := n.natAbs
  let s : String := Nat.repr (a / 10) ++ "." ++ Nat.repr (a % 10)
  if n < 0 then "-" ++ s else s

/-- The single runtime failure mode of the core loop: Python
`ZeroDivisionError`. -/
inductive SimError where
  | zeroDivision : SimError
deriving DecidableEq

instance {ε α : Type} [DecidableEq ε] [DecidableEq α] : DecidableEq (Except ε α) := fun
  | Except.error e1, Except.error e2 =>
    if h : e1 = e2 then Decidable.isTrue (by rw [h])
    else Decidable.isFalse (by intro he; cases he; exact h rfl)
  | Except.error _, Except.ok _ => Decidable.isFalse (by intro h; cases h)
  | Except.ok _, Except.error _ => Decidable.isFalse (by intro h; cases h)
  | Except.ok a, Except.ok b =>
    if h : a = b then Decidable.isTrue (by rw [h])
    else Decidable.isFalse (by intro he; cases he; exact h rfl)

/-- Mutable loop state (lines 90-97): running totals, the current
escalated cost levels, and the saving-percentage variables carried across
iterations. -/
structure SimState where
  cumulativeSubCost : ℚ
  cumulativeSavings : ℚ
  cumulativeTotalCost : ℚ
  totalFuelMt : ℚ
  fuelCostCurrent : ℚ
  subCost : ℚ
  savingPct : ℚ
  lastSavingPct : ℚ
deriving DecidableEq

/-- One emitted row (lines 127-139).  The first block of fields are the
rounded values the source appends to `data`; the `monthlyFuelMt` and
`exact…` fields are ghost copies of the pre-rounding values of the same
month, carried for specification purposes only. -/
structure MonthlyRecord where
  month : ℕ
  fuelCost : ℤ
  subscriptionCost : ℤ
  cumulativeSubCost : ℤ
  hullCleaningCost : ℤ
  savingPct : ℚ
  fuelCostSavings : ℤ
  cumulativeSavings : ℤ
  cumulativeTotalCost : ℤ
  profit : ℤ
  roiStr : String
  monthlyFuelMt : ℚ
  exactSavingPct : ℚ
  exactCumulativeSubCost : ℚ
  exactCumulativeSavings : ℚ
  exactCumulativeTotalCost : ℚ
  exactHullCleaningCost : ℚ
  exactTotalMonthlyCost : ℚ
  exactProfit : ℚ
  exactRoi : ℚ
deriving DecidableEq, Inhabited

/-- The savings-policy branch chain (lines 104-113), with Python
evaluation order: when the first two guards fail and the cleaning
frequency is zero, `month % cleaning_frequency` raises
`ZeroDivisionError`.  Returns the pair (saving percentage for the month,
new `last_saving_pct`). -/
def savingPolicy (p : Params) (m : ℕ) (last : ℚ) : Except SimError (ℚ × ℚ) :=
  if m < p.rampUp then
    Except.ok (0, last)
  else if p.rampUp < m ∧ m < p.cleaningFrequency then
    Except.ok (totalSavingPct p * p.rampUpSavingPct, last)
  else if p.cleaningFrequency = 0 then
    Except.error SimError.zeroDivision
  else if m % p.cleaningFrequency = 0 ∧ p.rampUp ≤ m then
    Except.ok (totalSavingPct p * p.postCleaningSavingPct,
               totalSavingPct p * p.postCleaningSavingPct)
  else
    Except.ok (max 0 (last - p.monthlyDeterioration * 100),
               max 0 (last - p.monthlyDeterioration * 100))

/-- Total version of the savings policy, agreeing with `savingPolicy`
whenever the cleaning frequency is nonzero. -/
def savingPolicyP (p : Params) (m : ℕ) (last : ℚ) : ℚ × ℚ :=
  if m < p.rampUp then
    (0, last)
  else if p.rampUp < m ∧ m < p.cleaningFrequency then
    (totalSavingPct p * p.rampUpSavingPct, last)
  else if m % p.cleaningFrequency = 0 ∧ p.rampUp ≤ m then
    (totalSavingPct p * p.postCleaningSavingPct,
     totalSavingPct p * p.postCleaningSavingPct)
  else
    (max 0 (last - p.monthlyDeterioration * 100),
     max 0 (last - p.monthlyDeterioration * 100))

/-- One body iteration of the month loop (lines 100-139), as a total
function: escalation, savings policy, cash flows, accumulation, ROI, and
the emitted record.  Division by a zero fuel price or modulo by a zero
cleaning frequency is handled by the `Except` wrapper `monthStep`. -/
def monthStepP (p : Params) (m : ℕ) (s : SimState) : MonthlyRecord × SimState :=
  let fc : ℚ := if m % 12 = 1 ∧ 1 < m
    then s.fuelCostCurrent * (1 + p.yearlySubIncrease) else s.fuelCostCurrent
  let sc : ℚ := if m % 12 = 1 ∧ 1 < m
    then s.subCost * (1 + p.yearlySubIncrease) else s.subCost
  let pol := savingPolicyP p m s.lastSavingPct
  let fuelSavingDollars : ℚ := fc * (pol.1 / 100)
  let monthlyFuelMt : ℚ := fc / p.fuelPrice
  let cumulativeSavings : ℚ := s.cumulativeSavings + fuelSavingDollars
  let cumulativeSubCost : ℚ := s.cumulativeSubCost + sc
  let hullCleaning : ℚ :=
    if m % p.cleaningFrequency = 0 ∧ p.rampUp ≤ m then p.cleaningCost else 0
  let otherCost : ℚ := if m = 1 then p.oneTimeCost + p.crewCost else 0
  let totalMonthlyCost : ℚ := sc + hullCleaning + otherCost
  let cumulativeTotalCost : ℚ := s.cumulativeTotalCost + totalMonthlyCost
  let profit : ℚ := cumulativeSavings - cumulativeTotalCost
  let roi : ℚ := if 0 < cumulativeTotalCost then profit / cumulativeTotalCost else -1
  ({ month := m
     fuelCost := pyRound fc
     subscriptionCost := pyRound sc
     cumulativeSubCost := pyRound cumulativeSubCost
     hullCleaningCost := pyRound hullCleaning
     savingPct := pyRound2 pol.1
     fuelCostSavings := pyRound fuelSavingDollars
     cumulativeSavings := pyRound cumulativeSavings
     cumulativeTotalCost := pyRound cumulativeTotalCost
     profit := pyRound profit
     roiStr := fmt1 (roi * 100) ++ "%"
     monthlyFuelMt := monthlyFuelMt
     exactSavingPct := pol.1
     exactCumulativeSubCost := cumulativeSubCost
     exactCumulativeSavings := cumulativeSavings
     exactCumulativeTotalCost := cumulativeTotalCost
     exactHullCleaningCost := hullCleaning
     exactTotalMonthlyCost := totalMonthlyCost
     exactProfit := profit
     exactRoi := roi },
   { cumulativeSubCost := cumulativeSubCost
     cumulativeSavings := cumulativeSavings
     cumulativeTotalCost := cumulativeTotalCost
     totalFuelMt := s.totalFuelMt + monthlyFuelMt
     fuelCostCurrent := fc
     subCost := sc
     savingPct := pol.1
     lastSavingPct := pol.2 })

/-- One body iteration of the month loop with the runtime failures of the
source, in source evaluation order: the policy branch chain may divide by a
zero cleaning frequency (line 108), then `fuel_cost_current / fuel_price`
(line 116) fails on a zero fuel price, then the hull-cleaning condition
(line 120) divides by the cleaning frequency again. -/
def monthStep (p : Params) (m : ℕ) (s : SimState) :
    Except SimError (MonthlyRecord × SimState) :=
  match savingPolicy p m s.lastSavingPct with
  | Except.error e => Except.error e
  | Except.ok _ =>
    if p.fuelPrice = 0 then Except.error SimError.zeroDivision
    else if p.cleaningFrequency = 0 then Except.error SimError.zeroDivision
    else Except.ok (monthStepP p m s)

/-- The month loop from month `m`, for `k` remaining months: the source
`for month in range(1, months + 1)` (line 99), aborting the whole run on
the first raised error. -/
def runFrom (p : Params) : ℕ → ℕ → SimState → Except SimError (List MonthlyRecord)
  | _, 0, _ => Except.ok []
  | m, k + 1, s =>
    match monthStep p m s with
    | Except.error e => Except.error e
    | Except.ok rs =>
      match runFrom p (m + 1) k rs.2 with
      | Except.error e => Except.error e
      | Except.ok rest => Except.ok (rs.1 :: rest)

/-- Failure-free month loop, agreeing with `runFrom` whenever the cleaning
frequency and the fuel price are nonzero. -/
def runPFrom (p : Params) : ℕ → ℕ → SimState → List MonthlyRecord
  | _, 0, _ => []
  | m, k + 1, s =>
    (monthStepP p m s).1 :: runPFrom p (m + 1) k (monthStepP p m s).2

/-- Initial loop state (lines 90-97). -/
def initState (p : Params) : SimState :=
  { cumulativeSubCost := 0
    cumulativeSavings := 0
    cumulativeTotalCost := 0
    totalFuelMt := 0
    fuelCostCurrent := monthlyFuelCostBase p
    subCost := initialSubCost p
    savingPct := 0
    lastSavingPct := 0 }

/-- The whole projection run: `months = years * 12` iterations starting
from month 1. -/
def runEngine (p : Params) : Except SimError (List MonthlyRecord) :=
  runFrom p 1 (p.years * 12) (initState p)

/-- State after `n` completed months of the failure-free loop. -/
def stateAt (p : Params) : ℕ → SimState
  | 0 => initState p
  | n + 1 => (monthStepP p (n + 1) (stateAt p n)).2

/-- Record emitted for month `n + 1` by the failure-free loop. -/
def recordAt (p : Params) (n : ℕ) : MonthlyRecord :=
  (monthStepP p (n + 1) (stateAt p n)).1

/-- Indexing helper: the `n`-th record of a run (0-based), or a default
record when out of range. -/
def recAt (l : List MonthlyRecord) (n : ℕ) : MonthlyRecord :=
  l.getD n default

/-- Nonnegativity of every cost and rate parameter. -/
abbrev NonnegCostRates (p : Params) : Prop :=
  0 ≤ p.costHull ∧ 0 ≤ p.costVoyage ∧ 0 ≤ p.costEmission ∧
  0 ≤ p.costScorecard ∧ 0 ≤ p.costPropulsion ∧ 0 ≤ p.cleaningCost ∧
  0 ≤ p.oneTimeCost ∧ 0 ≤ p.crewCost ∧ 0 ≤ p.monthlyDeterioration ∧
  0 ≤ p.yearlySubIncrease

/-- Nonnegativity of every rational parameter: costs, rates, saving
percentages and shares. -/
abbrev NonnegParams (p : Params) : Prop :=
  NonnegCostRates p ∧ 0 ≤ p.fuelPrice ∧ 0 ≤ p.dailyFuel ∧ 0 ≤ p.opDays ∧
  0 ≤ p.savingHull ∧ 0 ≤ p.savingVoyage ∧ 0 ≤ p.savingEmission ∧
  0 ≤ p.savingScorecard ∧ 0 ≤ p.savingPropulsion ∧
  0 ≤ p.rampUpSavingPct ∧ 0 ≤ p.postCleaningSavingPct

/-- Modelled from the spec: the validation rules of the Parameter
Resolver (spec sections 4.1 and 6).  The source itself contains no
validation code, so this predicate follows the wording of the spec:
duration 1-5 years, fleet size at least 1, all costs and rates
nonnegative, cleaning frequency at least 1, shares within 0-100 percent
(fractions within `[0, 1]`). -/
abbrev specValidParams (p : Params) : Prop :=
  1 ≤ p.years ∧ p.years ≤ 5 ∧ 1 ≤ p.fleetSize ∧
  0 ≤ p.fuelPrice ∧ 0 ≤ p.dailyFuel ∧ 0 ≤ p.opDays ∧
  0 ≤ p.savingHull ∧ 0 ≤ p.savingVoyage ∧ 0 ≤ p.savingEmission ∧
  0 ≤ p.savingScorecard ∧ 0 ≤ p.savingPropulsion ∧
  0 ≤ p.costHull ∧ 0 ≤ p.costVoyage ∧ 0 ≤ p.costEmission ∧
  0 ≤ p.costScorecard ∧ 0 ≤ p.costPropulsion ∧
  0 ≤ p.cleaningCost ∧ 1 ≤ p.cleaningFrequency ∧
  0 ≤ p.oneTimeCost ∧ 0 ≤ p.crewCost ∧
  0 ≤ p.monthlyDeterioration ∧ 0 ≤ p.yearlySubIncrease ∧
  0 ≤ p.rampUpSavingPct ∧ p.rampUpSavingPct ≤ 1 ∧
  0 ≤ p.postCleaningSavingPct ∧ p.postCleaningSavingPct ≤ 1

/-- Extract the record list of a successful run (empty on failure). -/
def okRecs (e : Except SimError (List MonthlyRecord)) : List MonthlyRecord :=
  match e with
  | Except.ok l => l
  | Except.error _ => []

/-- The concrete scenario of the spec (section 8): 1 contract year, fuel
price 550, daily fuel 20 MT, 200 operating days, savings
2.0/1.0/0.5/0.2/0.0 %, costs 250/250/250/250/0, ramp-up 6 months,
cleaning cost 15000 every 9 months, one-time cost 1000, crew cost 100,
deterioration 0.1 %/month, yearly increase 10 %, ramp share 60 %,
post-cleaning share 100 %. -/
def scenarioParams : Params :=
  { years := 1, fleetSize := 10, fuelPrice := 550, dailyFuel := 20, opDays := 200
    savingHull := 2, savingVoyage := 1, savingEmission := 1/2
    savingScorecard := 1/5, savingPropulsion := 0
    costHull := 250, costVoyage := 250, costEmission := 250
    costScorecard := 250, costPropulsion := 0
    rampUp := 6, cleaningCost := 15000, cleaningFrequency := 9
    oneTimeCost := 1000, crewCost := 100
    monthlyDeterioration := 1/1000, yearlySubIncrease := 1/10
    rampUpSavingPct := 3/5, postCleaningSavingPct := 1 }

/-- Records of the concrete scenario run. -/
def scenarioRecs : List MonthlyRecord := okRecs (runEngine scenarioParams)

/-- The concrete scenario extended to a 2-year contract. -/
def paramsTwoYears : Params := { scenarioParams with years := 2 }

/-- Records of the 2-year scenario run. -/
def recsTwoYears : List MonthlyRecord := okRecs (runEngine paramsTwoYears)

/-- A 2-year run whose initial subscription cost `10.4` is not a whole
number, with a 50 % yearly increase. -/
def paramsFracSub : Params :=
  { scenarioParams with
    years := 2, costHull := 52/5, costVoyage := 0, costEmission := 0
    costScorecard := 0, costPropulsion := 0, yearlySubIncrease := 1/2 }

/-- Records of the fractional-subscription run. -/
def recsFracSub : List MonthlyRecord := okRecs (runEngine paramsFracSub)

/-- The concrete scenario with all five saving percentages zero (total
saving 0 %) but a nonzero hull-cleaning cost. -/
def paramsZeroSavings : Params :=
  { scenarioParams with
    savingHull := 0, savingVoyage := 0, savingEmission := 0
    savingScorecard := 0, savingPropulsion := 0 }

/-- Records of the zero-savings run. -/
def recsZeroSavings : List MonthlyRecord := okRecs (runEngine paramsZeroSavings)

/-- The default inputs of `app.py` (3 contract years) with the cleaning
frequency set to 0. -/
def paramsFreqZero : Params :=
  { scenarioParams with years := 3, cleaningFrequency := 0 }

/-- The concrete scenario with a zero fuel price, which the spec's
validation accepts. -/
def paramsFuelZero : Params := { scenarioParams with fuelPrice := 0 }

/-- The concrete scenario with a single saving percentage `1.006` whose
total needs three decimal digits, no ramp-up delay and monthly cleaning,
so month 1 is a cleaning month at the full saving. -/
def paramsFineSavings : Params :=
  { scenarioParams with
    savingHull := 503/500, savingVoyage := 0, savingEmission := 0
    savingScorecard := 0, savingPropulsion := 0
    rampUp := 0, cleaningFrequency := 1 }

/-- Records of the fine-grained-savings run. -/
def recsFineSavings : List MonthlyRecord := okRecs (runEngine paramsFineSavings)

/-- The savings policy never fails when the cleaning frequency is
nonzero, and then agrees with its total version. -/
theorem savingPolicy_eq (p : Params) (hF : p.cleaningFrequency ≠ 0)
    (m : ℕ) (last : ℚ) :
    savingPolicy p m last = Except.ok (savingPolicyP p m last) := by
  unfold savingPolicy savingPolicyP
  split_ifs <;> simp_all

/-- A month step never fails when the cleaning frequency and fuel price
are nonzero, and then agrees with its total version. -/
theorem monthStep_eq (p : Params) (hF : p.cleaningFrequency ≠ 0)
    (hfp : p.fuelPrice ≠ 0) (m : ℕ) (s : SimState) :
    monthStep p m s = Except.ok (monthStepP p m s) := by
  unfold monthStep
  rw [savingPolicy_eq p hF]
  simp [hF, hfp]

/-- A successful month step forces both divisors to be nonzero. -/
theorem monthStep_ok_conditions {p : Params} {m : ℕ} {s : SimState}
    {x : MonthlyRecord × SimState} (h : monthStep p m s = Except.ok x) :
    p.cleaningFrequency ≠ 0 ∧ p.fuelPrice ≠ 0 := by
  unfold monthStep at h
  rcases hp : savingPolicy p m s.lastSavingPct with e | v <;> rw [hp] at h
  · cases h
  · by_cases hfp : p.fuelPrice = 0 <;> by_cases hF : p.cleaningFrequency = 0 <;>
      simp [hfp, hF] at h
    exact ⟨hF, hfp⟩

/-- The failing and failure-free loops agree when neither divisor is
zero. -/
theorem runFrom_eq_pure (p : Params) (hF : p.cleaningFrequency ≠ 0)
    (hfp : p.fuelPrice ≠ 0) :
    ∀ (k m : ℕ) (s : SimState),
      runFrom p m k s = Except.ok (runPFrom p m k s) := by
  intro k
  induction k with
  | zero => intro m s; rfl
  | succ k ih =>
    intro m s
    simp [runFrom, runPFrom, monthStep_eq p hF hfp, ih]

/-- The failure-free loop started at the state after `n` months produces
exactly the records `recordAt p n`, `recordAt p (n+1)`, …. -/
theorem runPFrom_ofFn (p : Params) :
    ∀ (k n : ℕ),
      runPFrom p (n + 1) k (stateAt p n) =
        List.ofFn (fun i : Fin k => recordAt p (n + i.val)) := by
  intro k
  induction k with
  | zero => intro n; rfl
  | succ k ih =>
    intro n
    rw [runPFrom, List.ofFn_succ]
    have h2 : n + 1 + 1 = (n + 1) + 1 := rfl
    have hs : (monthStepP p (n + 1) (stateAt p n)).2 = stateAt p (n + 1) := rfl
    rw [hs, ih (n + 1)]
    refine congrArg₂ _ rfl ?_
    refine congrArg _ (funext fun i => ?_)
    show recordAt p (n + 1 + i.val) = recordAt p (n + (i.val + 1))
    congr 1
    omega

/-- The whole run succeeds when neither divisor is zero, producing the
records `recordAt p 0 … recordAt p (12 years - 1)`. -/
theorem runEngine_eq_ofFn (p : Params) (hF : p.cleaningFrequency ≠ 0)
    (hfp : p.fuelPrice ≠ 0) :
    runEngine p =
      Except.ok (List.ofFn fun i : Fin (p.years * 12) => recordAt p i.val) := by
  have h0 : stateAt p 0 = initState p := rfl
  rw [runEngine, runFrom_eq_pure p hF hfp, ← h0, runPFrom_ofFn p (p.years * 12) 0]
  simp

/-- Any successful run consists of exactly the records
`recordAt p 0 … recordAt p (12 years - 1)`. -/
theorem runEngine_ok_eq {p : Params} {recs : List MonthlyRecord}
    (h : runEngine p = Except.ok recs) :
    recs = List.ofFn fun i : Fin (p.years * 12) => recordAt p i.val := by
  by_cases hk : p.years * 12 = 0
  · rw [runEngine, hk, runFrom] at h
    injection h with h2
    rw [← h2, hk]
    simp
  · obtain ⟨k, hk2⟩ : ∃ k, p.years * 12 = k + 1 := ⟨p.years * 12 - 1, by omega⟩
    have hfirst : ∃ x, monthStep p 1 (initState p) = Except.ok x := by
      rw [runEngine, hk2, runFrom] at h
      rcases hx : monthStep p 1 (initState p) with e | x <;> rw [hx] at h
      · cases h
      · exact ⟨x, rfl⟩
    rcases hfirst with ⟨x, hx⟩
    rcases monthStep_ok_conditions hx with ⟨hF, hfp⟩
    have h2 := runEngine_eq_ofFn p hF hfp
    rw [h] at h2
    exact Except.ok.inj h2

/-- Indexing a run given as `List.ofFn`. -/
theorem recAt_ofFn {n : ℕ} (f : Fin n → MonthlyRecord) (i : ℕ) (h : i < n) :
    recAt (List.ofFn f) i = f ⟨i, h⟩ := by
  unfold recAt
  rw [List.getD_eq_getElem?_getD, List.getElem?_ofFn]
  simp [List.ofFnNthVal, h]

/-- Banker rounding is monotone. -/
theorem pyRound_mono {a b : ℚ} (h : a ≤ b) : pyRound a ≤ pyRound b := by
  have hf : ⌊a⌋ ≤ ⌊b⌋ := Int.floor_le_floor h
  unfold pyRound
  rcases eq_or_lt_of_le hf with heq | hlt
  · have hfr : a - (⌊a⌋ : ℚ) ≤ b - (⌊b⌋ : ℚ) := by
      rw [← heq]
      linarith
    split_ifs <;> first | omega | linarith
  · split_ifs <;> omega

theorem pyRound_zero : pyRound 0 = 0 := by decide!

/-- Banker rounding never decreases a nonnegative value below zero. -/
theorem pyRound_nonneg {q : ℚ} (h : 0 ≤ q) : 0 ≤ pyRound q := by
  have hm := pyRound_mono h
  rw [pyRound_zero] at hm
  exact hm

/-- Banker rounding exceeds its argument by at most one half. -/
theorem pyRound_le (q : ℚ) : (pyRound q : ℚ) ≤ q + 1/2 := by
  have hfl := Int.floor_le q
  unfold pyRound
  split_ifs <;> push_cast <;> linarith

theorem pyRound2_nonneg {q : ℚ} (h : 0 ≤ q) : 0 ≤ pyRound2 q := by
  have hr : (0:ℤ) ≤ pyRound (q * 100) := pyRound_nonneg (by linarith)
  unfold pyRound2
  exact div_nonneg (by exact_mod_cast hr) (by norm_num)

/-- Rounding to two decimals exceeds its argument by at most `1/200`. -/
theorem pyRound2_le (q : ℚ) : pyRound2 q ≤ q + 1/200 := by
  have h := pyRound_le (q * 100)
  unfold pyRound2
  rw [div_le_iff₀ (by norm_num : (0:ℚ) < 100)]
  linarith

/-- Subscription-cost level after month `n + 1`: escalated exactly when
`(n+1) % 12 == 1 and n+1 > 1`. -/
theorem stateAt_succ_subCost (p : Params) (n : ℕ) :
    (stateAt p (n + 1)).subCost =
      if (n + 1) % 12 = 1 ∧ 1 < n + 1
      then (stateAt p n).subCost * (1 + p.yearlySubIncrease)
      else (stateAt p n).subCost := rfl

/-- Fuel-cost level after month `n + 1`: escalated exactly when
`(n+1) % 12 == 1 and n+1 > 1`. -/
theorem stateAt_succ_fuelCost (p : Params) (n : ℕ) :
    (stateAt p (n + 1)).fuelCostCurrent =
      if (n + 1) % 12 = 1 ∧ 1 < n + 1
      then (stateAt p n).fuelCostCurrent * (1 + p.yearlySubIncrease)
      else (stateAt p n).fuelCostCurrent := rfl

theorem stateAt_succ_lastSaving (p : Params) (n : ℕ) :
    (stateAt p (n + 1)).lastSavingPct =
      (savingPolicyP p (n + 1) (stateAt p n).lastSavingPct).2 := rfl

theorem stateAt_succ_cumSub (p : Params) (n : ℕ) :
    (stateAt p (n + 1)).cumulativeSubCost =
      (stateAt p n).cumulativeSubCost + (stateAt p (n + 1)).subCost := rfl

theorem stateAt_succ_cumSav (p : Params) (n : ℕ) :
    (stateAt p (n + 1)).cumulativeSavings =
      (stateAt p n).cumulativeSavings +
        (stateAt p (n + 1)).fuelCostCurrent *
          ((savingPolicyP p (n + 1) (stateAt p n).lastSavingPct).1 / 100) := rfl

theorem stateAt_succ_cumTot (p : Params) (n : ℕ) :
    (stateAt p (n + 1)).cumulativeTotalCost =
      (stateAt p n).cumulativeTotalCost +
        ((stateAt p (n + 1)).subCost +
          (if (n + 1) % p.cleaningFrequency = 0 ∧ p.rampUp ≤ n + 1
           then p.cleaningCost else 0) +
          (if n + 1 = 1 then p.oneTimeCost + p.crewCost else 0)) := rfl

theorem recordAt_month (p : Params) (n : ℕ) :
    (recordAt p n).month = n + 1 := rfl

theorem recordAt_exactSavingPct (p : Params) (n : ℕ) :
    (recordAt p n).exactSavingPct =
      (savingPolicyP p (n + 1) (stateAt p n).lastSavingPct).1 := rfl

theorem recordAt_savingPct (p : Params) (n : ℕ) :
    (recordAt p n).savingPct = pyRound2 (recordAt p n).exactSavingPct := rfl

theorem recordAt_exactCumSub (p : Params) (n : ℕ) :
    (recordAt p n).exactCumulativeSubCost =
      (stateAt p (n + 1)).cumulativeSubCost := rfl

theorem recordAt_exactCumSav (p : Params) (n : ℕ) :
    (recordAt p n).exactCumulativeSavings =
      (stateAt p (n + 1)).cumulativeSavings := rfl

theorem recordAt_exactCumTot (p : Params) (n : ℕ) :
    (recordAt p n).exactCumulativeTotalCost =
      (stateAt p (n + 1)).cumulativeTotalCost := rfl

theorem recordAt_exactProfit (p : Params) (n : ℕ) :
    (recordAt p n).exactProfit =
      (recordAt p n).exactCumulativeSavings -
        (recordAt p n).exactCumulativeTotalCost := rfl

theorem recordAt_exactRoi (p : Params) (n : ℕ) :
    (recordAt p n).exactRoi =
      if 0 < (recordAt p n).exactCumulativeTotalCost
      then (recordAt p n).exactProfit / (recordAt p n).exactCumulativeTotalCost
      else -1 := rfl

theorem recordAt_exactHull (p : Params) (n : ℕ) :
    (recordAt p n).exactHullCleaningCost =
      if (n + 1) % p.cleaningFrequency = 0 ∧ p.rampUp ≤ n + 1
      then p.cleaningCost else 0 := rfl

theorem recordAt_subscriptionCost (p : Params) (n : ℕ) :
    (recordAt p n).subscriptionCost = pyRound (stateAt p (n + 1)).subCost := rfl

theorem recordAt_fuelCost (p : Params) (n : ℕ) :
    (recordAt p n).fuelCost = pyRound (stateAt p (n + 1)).fuelCostCurrent := rfl

theorem recordAt_monthlyFuelMt (p : Params) (n : ℕ) :
    (recordAt p n).monthlyFuelMt =
      (stateAt p (n + 1)).fuelCostCurrent / p.fuelPrice := rfl

theorem recordAt_roundCumSub (p : Params) (n : ℕ) :
    (recordAt p n).cumulativeSubCost =
      pyRound (recordAt p n).exactCumulativeSubCost := rfl

theorem recordAt_roundCumSav (p : Params) (n : ℕ) :
    (recordAt p n).cumulativeSavings =
      pyRound (recordAt p n).exactCumulativeSavings := rfl

theorem recordAt_roundCumTot (p : Params) (n : ℕ) :
    (recordAt p n).cumulativeTotalCost =
      pyRound (recordAt p n).exactCumulativeTotalCost := rfl

theorem totalSavingPct_nonneg {p : Params} (h1 : 0 ≤ p.savingHull)
    (h2 : 0 ≤ p.savingVoyage) (h3 : 0 ≤ p.savingEmission)
    (h4 : 0 ≤ p.savingScorecard) (h5 : 0 ≤ p.savingPropulsion) :
    0 ≤ totalSavingPct p := by
  unfold totalSavingPct
  linarith

/-- The subscription-cost level stays nonnegative. -/
theorem stateAt_subCost_nonneg {p : Params} (h : NonnegCostRates p) :
    ∀ n, 0 ≤ (stateAt p n).subCost := by
  obtain ⟨hc1, hc2, hc3, hc4, hc5, -, -, -, -, hi⟩ := h
  intro n
  induction n with
  | zero =>
    show 0 ≤ initialSubCost p
    unfold initialSubCost
    linarith
  | succ n ih =>
    rw [stateAt_succ_subCost]
    split_ifs
    · exact mul_nonneg ih (by linarith)
    · exact ih

/-- The fuel-cost level stays nonnegative. -/
theorem stateAt_fuelCost_nonneg {p : Params} (hfp : 0 ≤ p.fuelPrice)
    (hdf : 0 ≤ p.dailyFuel) (hod : 0 ≤ p.opDays)
    (hi : 0 ≤ p.yearlySubIncrease) :
    ∀ n, 0 ≤ (stateAt p n).fuelCostCurrent := by
  intro n
  induction n with
  | zero =>
    show 0 ≤ monthlyFuelCostBase p
    unfold monthlyFuelCostBase
    positivity
  | succ n ih =>
    rw [stateAt_succ_fuelCost]
    split_ifs
    · exact mul_nonneg ih (by linarith)
    · exact ih

/-- The saving percentage produced by any policy branch is nonnegative
when the total saving and both shares are. -/
theorem savingPolicyP_fst_nonneg {p : Params} (hT : 0 ≤ totalSavingPct p)
    (h1 : 0 ≤ p.rampUpSavingPct) (h2 : 0 ≤ p.postCleaningSavingPct)
    (m : ℕ) (last : ℚ) : 0 ≤ (savingPolicyP p m last).1 := by
  unfold savingPolicyP
  split_ifs
  · exact le_refl 0
  · exact mul_nonneg hT h1
  · exact mul_nonneg hT h2
  · exact le_max_left 0 _

/-- The cumulative total cost stays nonnegative under nonnegative costs
and rates. -/
theorem stateAt_cumTot_nonneg {p : Params} (h : NonnegCostRates p) :
    ∀ n, 0 ≤ (stateAt p n).cumulativeTotalCost := by
  intro n
  induction n with
  | zero => exact le_refl 0
  | succ n ih =>
    have hsub := stateAt_subCost_nonneg h (n + 1)
    obtain ⟨-, -, -, -, -, hcl, hot, hcr, -, -⟩ := h
    rw [stateAt_succ_cumTot]
    split_ifs <;> linarith

/-- Both outputs of the policy stay within `[0, totalSavingPct]` when the
carried value does, the deterioration is nonnegative and the shares lie
in `[0, 1]`. -/
theorem savingPolicyP_bounds {p : Params} (hT : 0 ≤ totalSavingPct p)
    (hD : 0 ≤ p.monthlyDeterioration)
    (h1 : 0 ≤ p.rampUpSavingPct) (h1b : p.rampUpSavingPct ≤ 1)
    (h2 : 0 ≤ p.postCleaningSavingPct) (h2b : p.postCleaningSavingPct ≤ 1)
    {last : ℚ} (hl : 0 ≤ last) (hlb : last ≤ totalSavingPct p) (m : ℕ) :
    (0 ≤ (savingPolicyP p m last).1 ∧
      (savingPolicyP p m last).1 ≤ totalSavingPct p) ∧
    (0 ≤ (savingPolicyP p m last).2 ∧
      (savingPolicyP p m last).2 ≤ totalSavingPct p) := by
  unfold savingPolicyP
  have hmul1 : totalSavingPct p * p.rampUpSavingPct ≤ totalSavingPct p :=
    mul_le_of_le_one_right hT h1b
  have hmul2 : totalSavingPct p * p.postCleaningSavingPct ≤ totalSavingPct p :=
    mul_le_of_le_one_right hT h2b
  have hmax1 : (0:ℚ) ≤ max 0 (last - p.monthlyDeterioration * 100) :=
    le_max_left 0 _
  have hmax2 : max 0 (last - p.monthlyDeterioration * 100) ≤ totalSavingPct p :=
    max_le hT (by linarith)
  split_ifs
  · exact ⟨⟨le_refl 0, hT⟩, hl, hlb⟩
  · exact ⟨⟨mul_nonneg hT h1, hmul1⟩, hl, hlb⟩
  · exact ⟨⟨mul_nonneg hT h2, hmul2⟩, mul_nonneg hT h2, hmul2⟩
  · exact ⟨⟨hmax1, hmax2⟩, hmax1, hmax2⟩

/-- The carried high-water mark stays within `[0, totalSavingPct]`. -/
theorem stateAt_lastSaving_bounds {p : Params} (hT : 0 ≤ totalSavingPct p)
    (hD : 0 ≤ p.monthlyDeterioration)
    (h1 : 0 ≤ p.rampUpSavingPct) (h1b : p.rampUpSavingPct ≤ 1)
    (h2 : 0 ≤ p.postCleaningSavingPct) (h2b : p.postCleaningSavingPct ≤ 1) :
    ∀ n, 0 ≤ (stateAt p n).lastSavingPct ∧
      (stateAt p n).lastSavingPct ≤ totalSavingPct p := by
  intro n
  induction n with
  | zero => exact ⟨le_refl 0, hT⟩
  | succ n ih =>
    rw [stateAt_succ_lastSaving]
    exact (savingPolicyP_bounds hT hD h1 h1b h2 h2b ih.1 ih.2 (n + 1)).2

/-- The exact cumulative fields of consecutive records are
non-decreasing under nonnegative parameters. -/
theorem recordAt_cum_mono {p : Params} (h : NonnegParams p) (n : ℕ) :
    (recordAt p n).exactCumulativeSubCost ≤
      (recordAt p (n + 1)).exactCumulativeSubCost ∧
    (recordAt p n).exactCumulativeSavings ≤
      (recordAt p (n + 1)).exactCumulativeSavings ∧
    (recordAt p n).exactCumulativeTotalCost ≤
      (recordAt p (n + 1)).exactCumulativeTotalCost := by
  obtain ⟨hcr, hfp, hdf, hod, hs1, hs2, hs3, hs4, hs5, hp1, hp2⟩ := h
  have hTn : 0 ≤ totalSavingPct p := totalSavingPct_nonneg hs1 hs2 hs3 hs4 hs5
  have hi : 0 ≤ p.yearlySubIncrease := hcr.2.2.2.2.2.2.2.2.2
  have hsub := stateAt_subCost_nonneg hcr (n + 1 + 1)
  have hfc := stateAt_fuelCost_nonneg hfp hdf hod hi (n + 1 + 1)
  have hsp := savingPolicyP_fst_nonneg hTn hp1 hp2 (n + 1 + 1)
    (stateAt p (n + 1)).lastSavingPct
  refine ⟨?_, ?_, ?_⟩
  · rw [recordAt_exactCumSub, recordAt_exactCumSub, stateAt_succ_cumSub p (n + 1)]
    linarith
  · rw [recordAt_exactCumSav, recordAt_exactCumSav, stateAt_succ_cumSav p (n + 1)]
    have hterm : 0 ≤ (stateAt p (n + 1 + 1)).fuelCostCurrent *
        ((savingPolicyP p (n + 1 + 1) (stateAt p (n + 1)).lastSavingPct).1 / 100) :=
      mul_nonneg hfc (div_nonneg hsp (by norm_num))
    linarith
  · rw [recordAt_exactCumTot, recordAt_exactCumTot, stateAt_succ_cumTot p (n + 1)]
    obtain ⟨-, -, -, -, -, hcl, hot, hcw, -, -⟩ := hcr
    split_ifs <;> linarith

/-- C4: for every month of every run, the exact (pre-rounding) values
satisfy `profit = cumulativeSavings - cumulativeTotalCost`, and
`roi = -1` when `cumulativeTotalCost = 0`, otherwise
`roi = profit / cumulativeTotalCost` (under nonnegative costs and rates
and a cleaning frequency of at least 1, so that the cumulative total
cost is never negative). -/
theorem profit_roi_exact_identity (p : Params) (recs : List MonthlyRecord)
    (h : NonnegCostRates p) (hF : 1 ≤ p.cleaningFrequency)
    (hok : runEngine p = Except.ok recs) :
    ∀ r ∈ recs,
      r.exactProfit = r.exactCumulativeSavings - r.exactCumulativeTotalCost ∧
      (r.exactCumulativeTotalCost = 0 → r.exactRoi = -1) ∧
      (r.exactCumulativeTotalCost ≠ 0 →
        r.exactRoi = r.exactProfit / r.exactCumulativeTotalCost) := by
  intro r hr
  rw [runEngine_ok_eq hok, List.mem_ofFn] at hr
  obtain ⟨i, rfl⟩ := hr
  have hT : 0 ≤ (recordAt p i.val).exactCumulativeTotalCost := by
    rw [recordAt_exactCumTot]
    exact stateAt_cumTot_nonneg h _
  refine ⟨recordAt_exactProfit p i.val, ?_, ?_⟩
  · intro h0
    rw [recordAt_exactRoi, recordAt_exactCumTot] at *
    rw [h0]
    simp
  · intro h0
    rw [recordAt_exactRoi, if_pos (lt_of_le_of_ne hT (Ne.symm h0))]

theorem profit_roi_exact_identity_witness :
    NonnegCostRates scenarioParams ∧ 1 ≤ scenarioParams.cleaningFrequency ∧
    runEngine scenarioParams = Except.ok scenarioRecs ∧
    ∀ r ∈ scenarioRecs,
      r.exactProfit = r.exactCumulativeSavings - r.exactCumulativeTotalCost ∧
      (r.exactCumulativeTotalCost = 0 → r.exactRoi = -1) ∧
      (r.exactCumulativeTotalCost ≠ 0 →
        r.exactRoi = r.exactProfit / r.exactCumulativeTotalCost) :=
  ⟨by decide!, by decide!, by decide!,
    profit_roi_exact_identity scenarioParams scenarioRecs
      (by decide!) (by decide!) (by decide!)⟩

/-- C5: for every run with all parameters nonnegative and a cleaning
frequency of at least 1, the recorded cumulative subscription cost,
cumulative savings and cumulative total cost are non-decreasing across
consecutive records. -/
theorem cumulative_fields_monotone (p : Params) (recs : List MonthlyRecord)
    (h : NonnegParams p) (hF : 1 ≤ p.cleaningFrequency)
    (hok : runEngine p = Except.ok recs) :
    ∀ i : ℕ, i + 1 < recs.length →
      (recAt recs i).cumulativeSubCost ≤ (recAt recs (i + 1)).cumulativeSubCost ∧
      (recAt recs i).cumulativeSavings ≤ (recAt recs (i + 1)).cumulativeSavings ∧
      (recAt recs i).cumulativeTotalCost ≤
        (recAt recs (i + 1)).cumulativeTotalCost := by
  intro i hi
  have he := runEngine_ok_eq hok
  subst he
  rw [List.length_ofFn] at hi
  rw [recAt_ofFn _ i (by omega), recAt_ofFn _ (i + 1) hi]
  have hm := recordAt_cum_mono h i
  refine ⟨?_, ?_, ?_⟩
  · rw [recordAt_roundCumSub, recordAt_roundCumSub]
    exact pyRound_mono hm.1
  · rw [recordAt_roundCumSav, recordAt_roundCumSav]
    exact pyRound_mono hm.2.1
  · rw [recordAt_roundCumTot, recordAt_roundCumTot]
    exact pyRound_mono hm.2.2

theorem cumulative_fields_monotone_witness :
    NonnegParams scenarioParams ∧ 1 ≤ scenarioParams.cleaningFrequency ∧
    runEngine scenarioParams = Except.ok scenarioRecs ∧
    (0 + 1 < scenarioRecs.length →
      (recAt scenarioRecs 0).cumulativeSubCost ≤
        (recAt scenarioRecs (0 + 1)).cumulativeSubCost ∧
      (recAt scenarioRecs 0).cumulativeSavings ≤
        (recAt scenarioRecs (0 + 1)).cumulativeSavings ∧
      (recAt scenarioRecs 0).cumulativeTotalCost ≤
        (recAt scenarioRecs (0 + 1)).cumulativeTotalCost) :=
  ⟨by decide!, by decide!, by decide!,
    cumulative_fields_monotone scenarioParams scenarioRecs
      (by decide!) (by decide!) (by decide!) 0⟩

/-- C6 (amended): for every run whose five saving percentages are
nonnegative, whose deterioration rate is nonnegative, and whose two
shares lie in `[0, 1]`, the exact saving percentage assigned by the
policy for every record lies within `[0, totalSavingPct]`; the record's
saving-percentage field is that value rounded to two decimal digits, so
it is nonnegative but only bounded by `totalSavingPct + 1/200` (it can
exceed `totalSavingPct` when the total has more than two decimal
digits). -/
theorem savingPct_bounded (p : Params) (recs : List MonthlyRecord)
    (hs1 : 0 ≤ p.savingHull) (hs2 : 0 ≤ p.savingVoyage)
    (hs3 : 0 ≤ p.savingEmission) (hs4 : 0 ≤ p.savingScorecard)
    (hs5 : 0 ≤ p.savingPropulsion) (hD : 0 ≤ p.monthlyDeterioration)
    (h1 : 0 ≤ p.rampUpSavingPct) (h1b : p.rampUpSavingPct ≤ 1)
    (h2 : 0 ≤ p.postCleaningSavingPct) (h2b : p.postCleaningSavingPct ≤ 1)
    (hok : runEngine p = Except.ok recs) :
    ∀ r ∈ recs,
      (0 ≤ r.exactSavingPct ∧ r.exactSavingPct ≤ totalSavingPct p) ∧
      r.savingPct = pyRound2 r.exactSavingPct ∧
      0 ≤ r.savingPct ∧ r.savingPct ≤ totalSavingPct p + 1/200 := by
  intro r hr
  rw [runEngine_ok_eq hok, List.mem_ofFn] at hr
  obtain ⟨i, rfl⟩ := hr
  have hT : 0 ≤ totalSavingPct p := totalSavingPct_nonneg hs1 hs2 hs3 hs4 hs5
  have hlb := stateAt_lastSaving_bounds hT hD h1 h1b h2 h2b i.val
  have hex : 0 ≤ (recordAt p i.val).exactSavingPct ∧
      (recordAt p i.val).exactSavingPct ≤ totalSavingPct p := by
    rw [recordAt_exactSavingPct]
    exact (savingPolicyP_bounds hT hD h1 h1b h2 h2b hlb.1 hlb.2 (i.val + 1)).1
  refine ⟨hex, recordAt_savingPct p i.val, ?_, ?_⟩
  · rw [recordAt_savingPct]
    exact pyRound2_nonneg hex.1
  · rw [recordAt_savingPct]
    have hle := pyRound2_le (recordAt p i.val).exactSavingPct
    linarith [hex.2]

theorem savingPct_bounded_witness :
    (0:ℚ) ≤ scenarioParams.savingHull ∧
    runEngine scenarioParams = Except.ok scenarioRecs ∧
    ∀ r ∈ scenarioRecs,
      (0 ≤ r.exactSavingPct ∧
        r.exactSavingPct ≤ totalSavingPct scenarioParams) ∧
      r.savingPct = pyRound2 r.exactSavingPct ∧
      0 ≤ r.savingPct ∧
      r.savingPct ≤ totalSavingPct scenarioParams + 1/200 :=
  ⟨by decide!, by decide!,
    savingPct_bounded scenarioParams scenarioRecs
      (by decide!) (by decide!) (by decide!) (by decide!) (by decide!)
      (by decide!) (by decide!) (by decide!) (by decide!) (by decide!)
      (by decide!)⟩

/-- C6 counterexample: with a single saving percentage `1.006` (total
`1.006`, needing three decimal digits), no ramp-up delay, monthly
cleaning and a 100 % cleaning share — all within the claim's
hypotheses — month 1 is a cleaning month whose exact saving `1.006` is
recorded as `round(1.006, 2) = 1.01 > 1.006`: the recorded
saving-percentage field of a `MonthlyRecord` can exceed
`totalSavingPct`. -/
theorem savingPct_rounded_exceeds_total :
    runEngine paramsFineSavings = Except.ok recsFineSavings ∧
    ((0:ℚ) ≤ paramsFineSavings.savingHull ∧
      (0:ℚ) ≤ paramsFineSavings.savingVoyage ∧
      (0:ℚ) ≤ paramsFineSavings.savingEmission ∧
      (0:ℚ) ≤ paramsFineSavings.savingScorecard ∧
      (0:ℚ) ≤ paramsFineSavings.savingPropulsion ∧
      (0:ℚ) ≤ paramsFineSavings.monthlyDeterioration ∧
      (0:ℚ) ≤ paramsFineSavings.rampUpSavingPct ∧
      paramsFineSavings.rampUpSavingPct ≤ 1 ∧
      (0:ℚ) ≤ paramsFineSavings.postCleaningSavingPct ∧
      paramsFineSavings.postCleaningSavingPct ≤ 1) ∧
    totalSavingPct paramsFineSavings = 503/500 ∧
    (recAt recsFineSavings 0).savingPct = 101/100 ∧
    totalSavingPct paramsFineSavings < (recAt recsFineSavings 0).savingPct :=
  ⟨by decide!, by decide!, by decide!, by decide!, by decide!⟩

/-- A successful run with at least one month forces both divisors to be
nonzero. -/
theorem runEngine_ok_divisors {p : Params} {recs : List MonthlyRecord}
    (h : runEngine p = Except.ok recs) (hm : p.years * 12 ≠ 0) :
    p.cleaningFrequency ≠ 0 ∧ p.fuelPrice ≠ 0 := by
  obtain ⟨k, hk2⟩ : ∃ k, p.years * 12 = k + 1 := ⟨p.years * 12 - 1, by omega⟩
  rw [runEngine, hk2, runFrom] at h
  rcases hx : monthStep p 1 (initState p) with e | x <;> rw [hx] at h
  · cases h
  · exact monthStep_ok_conditions hx

/-- C1: the savings policy evaluates its branches in exactly the source
precedence: pre-ramp (`m < R`) gives 0; ramp period (`R < m < F`) gives
`T * P1`; cleaning months (`m % F == 0 and m >= R`) give `T * P2` and
reset the high-water mark; otherwise the high-water mark decays by
`D * 100` (floored at 0).  When `m = R` exactly, neither of the first two
branches matches, and evaluation falls to the cleaning branch when `R` is
a multiple of `F` and to the deterioration branch otherwise. -/
theorem savings_policy_branch_precedence (p : Params)
    (hF : 1 ≤ p.cleaningFrequency) (m : ℕ) (last : ℚ) :
    (m < p.rampUp → savingPolicy p m last = Except.ok (0, last)) ∧
    (¬ m < p.rampUp → (p.rampUp < m ∧ m < p.cleaningFrequency) →
      savingPolicy p m last =
        Except.ok (totalSavingPct p * p.rampUpSavingPct, last)) ∧
    (¬ m < p.rampUp → ¬ (p.rampUp < m ∧ m < p.cleaningFrequency) →
      (m % p.cleaningFrequency = 0 ∧ p.rampUp ≤ m) →
      savingPolicy p m last =
        Except.ok (totalSavingPct p * p.postCleaningSavingPct,
                   totalSavingPct p * p.postCleaningSavingPct)) ∧
    (¬ m < p.rampUp → ¬ (p.rampUp < m ∧ m < p.cleaningFrequency) →
      ¬ (m % p.cleaningFrequency = 0 ∧ p.rampUp ≤ m) →
      savingPolicy p m last =
        Except.ok (max 0 (last - p.monthlyDeterioration * 100),
                   max 0 (last - p.monthlyDeterioration * 100))) ∧
    (m = p.rampUp →
      (p.rampUp % p.cleaningFrequency = 0 →
        savingPolicy p m last =
          Except.ok (totalSavingPct p * p.postCleaningSavingPct,
                     totalSavingPct p * p.postCleaningSavingPct)) ∧
      (p.rampUp % p.cleaningFrequency ≠ 0 →
        savingPolicy p m last =
          Except.ok (max 0 (last - p.monthlyDeterioration * 100),
                     max 0 (last - p.monthlyDeterioration * 100)))) := by
  have hF0 : p.cleaningFrequency ≠ 0 := by omega
  rw [savingPolicy_eq p hF0]
  unfold savingPolicyP
  refine ⟨?_, ?_, ?_, ?_, ?_⟩
  · intro h1
    rw [if_pos h1]
  · intro h1 h2
    rw [if_neg h1, if_pos h2]
  · intro h1 h2 h3
    rw [if_neg h1, if_neg h2, if_pos h3]
  · intro h1 h2 h3
    rw [if_neg h1, if_neg h2, if_neg h3]
  · intro hm
    subst hm
    constructor
    · intro hmod
      rw [if_neg (lt_irrefl p.rampUp), if_neg (fun h => lt_irrefl p.rampUp h.1),
        if_pos ⟨hmod, le_refl p.rampUp⟩]
    · intro hmod
      rw [if_neg (lt_irrefl p.rampUp), if_neg (fun h => lt_irrefl p.rampUp h.1),
        if_neg (fun h => hmod h.1)]

theorem savings_policy_branch_precedence_witness :
    1 ≤ scenarioParams.cleaningFrequency ∧
    savingPolicy scenarioParams 9 1 =
      Except.ok
        (totalSavingPct scenarioParams * scenarioParams.postCleaningSavingPct,
         totalSavingPct scenarioParams * scenarioParams.postCleaningSavingPct) :=
  ⟨by decide!,
    (savings_policy_branch_precedence scenarioParams (by decide!) 9 1).2.2.1
      (by decide!) (by decide!) (by decide!)⟩

/-- The cost levels after `n` months equal the initial levels escalated
once per completed contract year. -/
theorem stateAt_levels (p : Params) :
    ∀ n, (stateAt p n).subCost =
        initialSubCost p * (1 + p.yearlySubIncrease) ^ ((n - 1) / 12) ∧
      (stateAt p n).fuelCostCurrent =
        monthlyFuelCostBase p * (1 + p.yearlySubIncrease) ^ ((n - 1) / 12) := by
  intro n
  induction n with
  | zero =>
    constructor <;> simp [stateAt, initState]
  | succ n ih =>
    obtain ⟨ih1, ih2⟩ := ih
    by_cases hc : (n + 1) % 12 = 1 ∧ 1 < n + 1
    · have hexp : (n + 1 - 1) / 12 = (n - 1) / 12 + 1 := by omega
      constructor
      · rw [stateAt_succ_subCost, if_pos hc, ih1, hexp, pow_succ]
        ring
      · rw [stateAt_succ_fuelCost, if_pos hc, ih2, hexp, pow_succ]
        ring
    · have hexp : (n + 1 - 1) / 12 = (n - 1) / 12 := by omega
      constructor
      · rw [stateAt_succ_subCost, if_neg hc, ih1, hexp]
      · rw [stateAt_succ_fuelCost, if_neg hc, ih2, hexp]

/-- The cost levels used during month `n + 1` (0-based index `n`). -/
theorem recordAt_levels (p : Params) (n : ℕ) :
    (stateAt p (n + 1)).subCost =
      initialSubCost p * (1 + p.yearlySubIncrease) ^ (n / 12) ∧
    (stateAt p (n + 1)).fuelCostCurrent =
      monthlyFuelCostBase p * (1 + p.yearlySubIncrease) ^ (n / 12) := by
  have h := stateAt_levels p (n + 1)
  simpa using h

/-- C10: for every run with a positive fuel price, the fuel mass
accumulated for the record of index `i` (month `i + 1`) is
`dailyFuel * opDays / 12` scaled by `(1 + yearlySubIncrease)` to the
power of the number of completed contract years, so the reported fuel
consumption grows with the escalation rate even though the physical
parameters are constant. -/
theorem fuel_mass_grows_with_escalation (p : Params)
    (recs : List MonthlyRecord) (hfp : 0 < p.fuelPrice)
    (hok : runEngine p = Except.ok recs) :
    ∀ i : ℕ, i < recs.length →
      (recAt recs i).monthlyFuelMt =
        p.dailyFuel * p.opDays / 12 * (1 + p.yearlySubIncrease) ^ (i / 12) := by
  intro i hi
  have he := runEngine_ok_eq hok
  subst he
  rw [List.length_ofFn] at hi
  rw [recAt_ofFn _ i hi, recordAt_monthlyFuelMt, (recordAt_levels p i).2]
  unfold monthlyFuelCostBase
  have h0 : p.fuelPrice ≠ 0 := ne_of_gt hfp
  field_simp
  ring

theorem fuel_mass_grows_with_escalation_witness :
    (0:ℚ) < scenarioParams.fuelPrice ∧
    runEngine scenarioParams = Except.ok scenarioRecs ∧
    (0 < scenarioRecs.length →
      (recAt scenarioRecs 0).monthlyFuelMt =
        scenarioParams.dailyFuel * scenarioParams.opDays / 12 *
          (1 + scenarioParams.yearlySubIncrease) ^ (0 / 12)) :=
  ⟨by decide!, by decide!,
    fuel_mass_grows_with_escalation scenarioParams scenarioRecs
      (by decide!) (by decide!) 0⟩

/-- C7 (amended): escalation multiplies both cost levels by
`(1 + yearlySubIncrease)` exactly in months `m` with
`m % 12 == 1 and m > 1`, before the month's record is computed, and in no
other month are they changed; consequently the recorded month-1
subscription cost is `round(initialSubCost)` and, for a contract of 2 or
more years, the recorded month-13 subscription cost is
`round(initialSubCost * (1 + yearlySubIncrease))`. -/
theorem escalation_timing_and_recorded (p : Params)
    (recs : List MonthlyRecord) (hy : 2 ≤ p.years)
    (hok : runEngine p = Except.ok recs) :
    (∀ (m : ℕ) (s : SimState),
      (monthStepP p m s).2.subCost =
        (if m % 12 = 1 ∧ 1 < m then s.subCost * (1 + p.yearlySubIncrease)
         else s.subCost) ∧
      (monthStepP p m s).2.fuelCostCurrent =
        (if m % 12 = 1 ∧ 1 < m
         then s.fuelCostCurrent * (1 + p.yearlySubIncrease)
         else s.fuelCostCurrent) ∧
      (monthStepP p m s).1.subscriptionCost =
        pyRound ((monthStepP p m s).2.subCost) ∧
      (monthStepP p m s).1.fuelCost =
        pyRound ((monthStepP p m s).2.fuelCostCurrent)) ∧
    (recAt recs 0).subscriptionCost = pyRound (initialSubCost p) ∧
    (recAt recs 12).subscriptionCost =
      pyRound (initialSubCost p * (1 + p.yearlySubIncrease)) := by
  have he := runEngine_ok_eq hok
  subst he
  refine ⟨fun m s => ⟨rfl, rfl, rfl, rfl⟩, ?_, ?_⟩
  · rw [recAt_ofFn _ 0 (by omega), recordAt_subscriptionCost,
      (recordAt_levels p 0).1]
    norm_num
  · rw [recAt_ofFn _ 12 (by omega), recordAt_subscriptionCost,
      (recordAt_levels p 12).1]
    norm_num

theorem escalation_timing_and_recorded_witness :
    2 ≤ paramsTwoYears.years ∧
    runEngine paramsTwoYears = Except.ok recsTwoYears ∧
    (recAt recsTwoYears 0).subscriptionCost =
      pyRound (initialSubCost paramsTwoYears) ∧
    (recAt recsTwoYears 12).subscriptionCost =
      pyRound (initialSubCost paramsTwoYears *
        (1 + paramsTwoYears.yearlySubIncrease)) :=
  ⟨by decide!, by decide!,
    (escalation_timing_and_recorded paramsTwoYears recsTwoYears
      (by decide!) (by decide!)).2⟩

/-- C7 counterexample: with initial subscription cost `10.4` and a 50 %
yearly increase on a 2-year contract, the recorded month-1 subscription
cost is `10`, not `initialSubCost = 10.4`, and the recorded month-13 cost
`16 = round(10.4 * 1.5)` differs from
`round(recordedMonth1 * 1.5) = round(15) = 15`. -/
theorem escalation_recorded_claim_fails :
    runEngine paramsFracSub = Except.ok recsFracSub ∧
    2 ≤ paramsFracSub.years ∧
    ((recAt recsFracSub 0).subscriptionCost : ℚ) ≠ initialSubCost paramsFracSub ∧
    (recAt recsFracSub 12).subscriptionCost ≠
      pyRound (((recAt recsFracSub 0).subscriptionCost : ℚ) *
        (1 + paramsFracSub.yearlySubIncrease)) :=
  ⟨by decide!, by decide!, by decide!, by decide!⟩

/-- C2 (code evidence): with a cleaning frequency of 0 the engine does
run its first month and aborts it with a `ZeroDivisionError`; there is no
`InvalidParameter` validation anywhere in the source, and no record list
is produced. -/
theorem cleaningFrequency_zero_zeroDivision :
    runEngine paramsFreqZero = Except.error SimError.zeroDivision ∧
    monthStep paramsFreqZero 1 (initState paramsFreqZero) =
      Except.error SimError.zeroDivision :=
  ⟨by decide!, by decide!⟩

/-- C3 counterexample: a zero fuel price passes every validation rule of
the spec, yet the engine is not total on it: the run fails with a
`ZeroDivisionError` (at `fuel_cost_current / fuel_price`, line 116)
instead of producing a record for every month. -/
theorem engine_not_total_on_valid_zero_fuelPrice :
    specValidParams paramsFuelZero ∧
    runEngine paramsFuelZero = Except.error SimError.zeroDivision :=
  ⟨by decide!, by decide!⟩

/-- C3 (amended): for every parameter value passing the validation rules
of the spec whose fuel price is moreover strictly positive, the engine is
total: the run succeeds and produces one record per month. -/
theorem engine_total_of_valid_pos_fuelPrice (p : Params)
    (hv : specValidParams p) (hfp : 0 < p.fuelPrice) :
    ∃ recs, runEngine p = Except.ok recs ∧ recs.length = p.years * 12 := by
  obtain ⟨-, -, -, -, -, -, -, -, -, -, -, -, -, -, -, -, -, hF1, -⟩ := hv
  exact ⟨_, runEngine_eq_ofFn p (by omega) (ne_of_gt hfp), by simp⟩

theorem engine_total_of_valid_pos_fuelPrice_witness :
    specValidParams scenarioParams ∧ (0:ℚ) < scenarioParams.fuelPrice ∧
    ∃ recs, runEngine scenarioParams = Except.ok recs ∧
      recs.length = scenarioParams.years * 12 :=
  ⟨by decide!, by decide!,
    engine_total_of_valid_pos_fuelPrice scenarioParams (by decide!) (by decide!)⟩

/-- C8: the concrete scenario of the spec yields month-1 subscription
cost 1000, saving 0 % and total monthly cost 2100; month 9 is the first
cleaning month with saving 3.7 % and hull-cleaning cost 15000; and the
month-12 ROI string equals `profit / cumulativeTotalCost * 100` formatted
to one decimal place with a trailing percent sign, concretely `21.6%`. -/
theorem concrete_scenario_values :
    runEngine scenarioParams = Except.ok scenarioRecs ∧
    scenarioRecs.length = 12 ∧
    (recAt scenarioRecs 0).subscriptionCost = 1000 ∧
    (recAt scenarioRecs 0).savingPct = 0 ∧
    (recAt scenarioRecs 0).exactTotalMonthlyCost = 2100 ∧
    (recAt scenarioRecs 8).savingPct = 37/10 ∧
    (recAt scenarioRecs 8).hullCleaningCost = 15000 ∧
    (recAt scenarioRecs 11).roiStr =
      fmt1 ((recAt scenarioRecs 11).exactProfit /
        (recAt scenarioRecs 11).exactCumulativeTotalCost * 100) ++ "%" ∧
    (recAt scenarioRecs 11).roiStr = "21.6%" :=
  ⟨by decide!, by decide!, by decide!, by decide!, by decide!, by decide!,
    by decide!, by decide!, by decide!⟩

/-- C9 (amended): the hull-cleaning charge of a record equals the
cleaning cost exactly when `m % F == 0 and m >= R` holds for its month,
and for months of a run that raw condition is equivalent to the cleaning
branch of the savings policy firing (the precedence conditions of the
earlier branches are implied); hence a nonzero recorded cleaning charge
forces the saving percentage `totalSavingPct * cleaningShare`.  The
converse of the last implication is not claimed: the saving percentage
can coincide with `totalSavingPct * cleaningShare` in months with no
charge. -/
theorem cleaning_charge_iff_branch (p : Params) (recs : List MonthlyRecord)
    (hok : runEngine p = Except.ok recs) :
    ∀ i : ℕ, i < recs.length →
      ((recAt recs i).exactHullCleaningCost =
        (if (i + 1) % p.cleaningFrequency = 0 ∧ p.rampUp ≤ i + 1
         then p.cleaningCost else 0)) ∧
      (((i + 1) % p.cleaningFrequency = 0 ∧ p.rampUp ≤ i + 1) ↔
        (¬ (i + 1) < p.rampUp ∧
         ¬ (p.rampUp < i + 1 ∧ i + 1 < p.cleaningFrequency) ∧
         (i + 1) % p.cleaningFrequency = 0 ∧ p.rampUp ≤ i + 1)) ∧
      ((recAt recs i).exactHullCleaningCost ≠ 0 →
        (recAt recs i).exactSavingPct =
          totalSavingPct p * p.postCleaningSavingPct) := by
  intro i hi
  have he := runEngine_ok_eq hok
  subst he
  rw [List.length_ofFn] at hi
  rw [recAt_ofFn _ i hi]
  refine ⟨recordAt_exactHull p i, ?_, ?_⟩
  · constructor
    · rintro ⟨hmod, hle⟩
      refine ⟨by omega, ?_, hmod, hle⟩
      rintro ⟨-, hlt⟩
      rw [Nat.mod_eq_of_lt hlt] at hmod
      omega
    · rintro ⟨-, -, h3⟩
      exact h3
  · intro hne
    by_cases hcond : (i + 1) % p.cleaningFrequency = 0 ∧ p.rampUp ≤ i + 1
    · have hnb2 : ¬ (p.rampUp < i + 1 ∧ i + 1 < p.cleaningFrequency) := by
        rintro ⟨-, hlt⟩
        have hmod := hcond.1
        rw [Nat.mod_eq_of_lt hlt] at hmod
        omega
      rw [recordAt_exactSavingPct]
      unfold savingPolicyP
      rw [if_neg (by omega : ¬ i + 1 < p.rampUp), if_neg hnb2, if_pos hcond]
    · exfalso
      apply hne
      rw [recordAt_exactHull, if_neg hcond]

theorem cleaning_charge_iff_branch_witness :
    runEngine scenarioParams = Except.ok scenarioRecs ∧
    (8 < scenarioRecs.length →
      ((recAt scenarioRecs 8).exactHullCleaningCost =
        (if 9 % scenarioParams.cleaningFrequency = 0 ∧
            scenarioParams.rampUp ≤ 9
         then scenarioParams.cleaningCost else 0)) ∧
      ((9 % scenarioParams.cleaningFrequency = 0 ∧
          scenarioParams.rampUp ≤ 9) ↔
        (¬ 9 < scenarioParams.rampUp ∧
         ¬ (scenarioParams.rampUp < 9 ∧
            9 < scenarioParams.cleaningFrequency) ∧
         9 % scenarioParams.cleaningFrequency = 0 ∧
         scenarioParams.rampUp ≤ 9)) ∧
      ((recAt scenarioRecs 8).exactHullCleaningCost ≠ 0 →
        (recAt scenarioRecs 8).exactSavingPct =
          totalSavingPct scenarioParams *
            scenarioParams.postCleaningSavingPct)) :=
  ⟨by decide!,
    cleaning_charge_iff_branch scenarioParams scenarioRecs (by decide!) 8⟩

/-- C9 counterexample: with all five saving percentages zero, month 1 of
the run has saving percentage `0 = totalSavingPct * cleaningShare` but a
zero hull-cleaning charge, so a record whose saving percentage equals
`totalSavingPct * cleaningShare` need not carry a nonzero cleaning
charge: the converse direction of the claim fails. -/
theorem cleaning_charge_converse_fails :
    runEngine paramsZeroSavings = Except.ok recsZeroSavings ∧
    (recAt recsZeroSavings 0).exactSavingPct =
      totalSavingPct paramsZeroSavings *
        paramsZeroSavings.postCleaningSavingPct ∧
    (recAt recsZeroSavings 0).exactHullCleaningCost = 0 ∧
    (recAt recsZeroSavings 0).hullCleaningCost = 0 ∧
    paramsZeroSavings.cleaningCost ≠ 0 :=
  ⟨by decide!, by decide!, by decide!, by decide!, by decide!⟩

example : pyRound (37/10) = 4 := by decide!
example : pyRound (5/2) = 2 := by decide!
example : pyRound (7/2) = 4 := by decide!
example : pyRound (-2/5) = 0 := by decide!
example : fmt1 (216132/1000) = "216.1" := by decide!
example : fmt1 (-100) = "-100.0" := by decide!
